import Mathlib

/-!
# Verification of the factupe electronic-invoicing core

Shallow embedding, in Lean 4, of the computational core of the `darwinva97/factupe`
repository (Peruvian electronic tax documents), together with theorems settling the
specification's claims about it.

Conventions used throughout:

* JavaScript numbers are modelled as exact rationals (`ℚ`).  Where the truth of a
  claim depends on the IEEE-754 double value of a decimal literal (as opposed to the
  exact decimal), the literal is embedded as the exact rational value of its nearest
  double, and this is noted at the definition site.
* `Math.round` rounds half toward positive infinity, i.e. `⌊x + 1/2⌋`.
* TypeScript strings are Lean `String`s; `Buffer`s are `List ℕ` of byte values.
* Fallible code returns `Except`/`Option`; a thrown JS error is an `Except.error`.
-/

/-- Model of JavaScript `Math.round`: round half toward positive infinity. -/
def jsRound (x : ℚ) : ℤ := ⌊x + 1/2⌋

/-- Model of `Math.round(x * 100) / 100`, the two-decimal rounding used for every
public monetary figure in `calculateTotals` (apps/web/actions/documents.ts). -/
def round2 (x : ℚ) : ℚ := (jsRound (x * 100) : ℚ) / 100

/-! ## Tax calculator (`calculateTotals`, apps/web/actions/documents.ts lines 131-214) -/

/-- The fixed IGV rate constant `IGV_RATE = 0.18`. -/
def IGV_RATE : ℚ := 18/100

/-- One raw input line item of `calculateTotals`. -/
structure RawItem where
  quantity : ℚ
  unitPrice : ℚ
  discount : ℚ
  taxType : String
deriving DecidableEq, Repr

/-- `subtotal = item.quantity * item.unitPrice - item.discount`. -/
def lineSubtotal (it : RawItem) : ℚ := it.quantity * it.unitPrice - it.discount

/-- The tax-treatment codes of the `'11'`..`'17'` switch cases (gravado gratuito). -/
def FREE_TAX_TYPES : List String := ["11", "12", "13", "14", "15", "16", "17"]

/-- Per-line `taxAmount`: `subtotal * IGV_RATE` in the `'10'` case, `0` in every
other case of the switch (the per-line tax amount is not rounded in the source). -/
def lineTaxAmount (it : RawItem) : ℚ :=
  if it.taxType = "10" then lineSubtotal it * IGV_RATE else 0

/-- The five running accumulators of `calculateTotals` before the global-discount
step: gravado, exonerado, inafecto, gratuito and the IGV total. -/
structure Buckets where
  taxable : ℚ := 0
  exempt : ℚ := 0
  unaffected : ℚ := 0
  free : ℚ := 0
  igv : ℚ := 0
deriving DecidableEq, Repr

/-- One step of the accumulation performed inside the `items.map` callback:
the `switch (item.taxType)` statement.  A tax type matching no case leaves every
accumulator unchanged (JavaScript `switch` with no `default`). -/
def accumLine (b : Buckets) (it : RawItem) : Buckets :=
  let subtotal := lineSubtotal it
  if it.taxType = "10" then
    { b with taxable := b.taxable + subtotal, igv := b.igv + subtotal * IGV_RATE }
  else if FREE_TAX_TYPES.contains it.taxType then
    { b with free := b.free + subtotal }
  else if it.taxType = "20" then
    { b with exempt := b.exempt + subtotal }
  else if it.taxType = "30" then
    { b with unaffected := b.unaffected + subtotal }
  else if it.taxType = "40" then
    { b with taxable := b.taxable + subtotal }
  else b

/-- Accumulation of all lines, in order. -/
def accumulate (items : List RawItem) : Buckets := items.foldl accumLine {}

/-- One element of the `calculatedItems` array produced by the `items.map` callback. -/
structure CalcItem where
  id : ℕ
  quantity : ℚ
  unitPrice : ℚ
  discount : ℚ
  taxType : String
  subtotal : ℚ
  taxAmount : ℚ
  total : ℚ
  isFree : Bool
  igvPercentage : ℚ
  priceTypeCode : String
deriving DecidableEq, Repr

/-- The value returned for one item by the `items.map((item, index) => ...)` callback. -/
def calcItem (index : ℕ) (it : RawItem) : CalcItem :=
  let subtotal := lineSubtotal it
  let taxAmount := lineTaxAmount it
  let isFree := FREE_TAX_TYPES.contains it.taxType
  { id := index + 1
    quantity := it.quantity
    unitPrice := it.unitPrice
    discount := it.discount
    taxType := it.taxType
    subtotal := subtotal
    taxAmount := taxAmount
    total := subtotal + taxAmount
    isFree := isFree
    igvPercentage := if it.taxType = "10" then 18 else 0
    priceTypeCode := if isFree then "02" else "01" }

/-- The global-discount step:
`if (globalDiscount > 0 && taxableAmount > 0) { taxableAmount -= globalDiscount / (1 + IGV_RATE);
igvAmount -= (globalDiscount / (1 + IGV_RATE)) * IGV_RATE }`.
No other accumulator is touched. -/
def applyGlobalDiscount (globalDiscount : ℚ) (b : Buckets) : Buckets :=
  if 0 < globalDiscount ∧ 0 < b.taxable then
    { b with
      taxable := b.taxable - globalDiscount / (1 + IGV_RATE)
      igv := b.igv - globalDiscount / (1 + IGV_RATE) * IGV_RATE }
  else b

/-- The object returned by `calculateTotals`. -/
structure Totals where
  items : List CalcItem
  taxableAmount : ℚ
  exemptAmount : ℚ
  unaffectedAmount : ℚ
  freeAmount : ℚ
  igv : ℚ
  globalDiscount : ℚ
  subtotal : ℚ
  total : ℚ
deriving DecidableEq, Repr

/-- `calculateTotals(items, globalDiscount = 0)` (apps/web/actions/documents.ts):
accumulate the five buckets over the lines, back the global discount out of the
taxable and IGV buckets, then round every public monetary figure to 2 decimals.
`subtotal = taxableAmount + exemptAmount + unaffectedAmount` and
`total = subtotal + igvAmount` are computed before rounding. -/
def calculateTotals (items : List RawItem) (globalDiscount : ℚ := 0) : Totals :=
  let b := applyGlobalDiscount globalDiscount (accumulate items)
  let subtotal := b.taxable + b.exempt + b.unaffected
  let total := subtotal + b.igv
  { items := items.mapIdx calcItem
    taxableAmount := round2 b.taxable
    exemptAmount := round2 b.exempt
    unaffectedAmount := round2 b.unaffected
    freeAmount := round2 b.free
    igv := round2 b.igv
    globalDiscount := round2 globalDiscount
    subtotal := round2 subtotal
    total := round2 total }

/-! ### Helper lemmas about the calculator -/

/-- The IGV accumulator is exactly the sum of the per-line tax amounts. -/
theorem accumulate_igv_eq_sum (items : List RawItem) :
    (accumulate items).igv = (items.map lineTaxAmount).sum := by
  suffices h : ∀ (b : Buckets), (items.foldl accumLine b).igv
      = b.igv + (items.map lineTaxAmount).sum by
    simpa using h {}
  induction items with
  | nil => intro b; simp
  | cons it rest ih =>
    intro b
    simp only [List.foldl_cons, List.map_cons, List.sum_cons, ih]
    unfold accumLine lineTaxAmount
    by_cases h10 : it.taxType = "10"
    · simp [h10]; ring
    · simp only [h10, if_false, ite_false]
      split_ifs <;> simp

/-- Every element of the returned `items` array arises from `calcItem` applied to
an input line at its index. -/
theorem mem_items_calculateTotals {items : List RawItem} {g : ℚ} {ci : CalcItem}
    (h : ci ∈ (calculateTotals items g).items) :
    ∃ i it, it ∈ items ∧ ci = calcItem i it := by
  simp only [calculateTotals] at h
  rw [List.mapIdx_eq_enum_map] at h
  obtain ⟨⟨i, it⟩, hmem, rfl⟩ := List.mem_map.mp h
  exact ⟨i, it, List.getElem?_mem (List.mem_enum_iff_getElem?.mp hmem), rfl⟩

/-- The per-line tax amounts of the returned items are the `lineTaxAmount`s of the
input lines, in order. -/
theorem map_taxAmount_calculateTotals (items : List RawItem) (g : ℚ) :
    ((calculateTotals items g).items.map CalcItem.taxAmount) = items.map lineTaxAmount := by
  simp only [calculateTotals]
  rw [List.mapIdx_eq_enum_map, List.map_map]
  have hfun : (CalcItem.taxAmount ∘ Function.uncurry calcItem)
      = (lineTaxAmount ∘ Prod.snd) := by
    funext p; simp [Function.uncurry, calcItem]
  rw [hfun, ← List.map_map, List.enum_map_snd]

/-- With no global discount the discount step is a no-op. -/
theorem applyGlobalDiscount_zero (b : Buckets) : applyGlobalDiscount 0 b = b := by
  simp [applyGlobalDiscount]

/-- **C1**: for a line-item list in which every line has tax-treatment code `'10'`
(standard taxed) and a non-negative per-line discount, with no global discount,
`calculateTotals` gives each line `subtotal = quantity*unitPrice - discount`,
`taxAmount = subtotal * 0.18` and `total = subtotal + taxAmount`, and the
document-level `igv` is the sum of the line tax amounts rounded to 2 decimals;
in particular one line qty=1, price=500, taxType='10', no discount yields
`taxableAmount = 500`, `igv = 90`, `total = 590`. -/
theorem calculateTotals_standard_taxed (items : List RawItem)
    (hT : ∀ it ∈ items, it.taxType = "10")
    (hD : ∀ it ∈ items, 0 ≤ it.discount) :
    (∀ ci ∈ (calculateTotals items 0).items,
        ci.subtotal = ci.quantity * ci.unitPrice - ci.discount ∧
        ci.taxAmount = ci.subtotal * (18/100) ∧
        ci.total = ci.subtotal + ci.taxAmount) ∧
    (calculateTotals items 0).igv
      = round2 (((calculateTotals items 0).items.map CalcItem.taxAmount).sum) ∧
    (calculateTotals [⟨1, 500, 0, "10"⟩] 0).taxableAmount = 500 ∧
    (calculateTotals [⟨1, 500, 0, "10"⟩] 0).igv = 90 ∧
    (calculateTotals [⟨1, 500, 0, "10"⟩] 0).total = 590 := by
  refine ⟨?_, ?_, ?_, ?_, ?_⟩
  · intro ci hci
    obtain ⟨i, it, hit, rfl⟩ := mem_items_calculateTotals hci
    have h10 := hT it hit
    simp [calcItem, lineTaxAmount, lineSubtotal, h10, IGV_RATE]
  · rw [map_taxAmount_calculateTotals]
    simp only [calculateTotals, applyGlobalDiscount_zero]
    rw [accumulate_igv_eq_sum]
  · norm_num [calculateTotals, accumulate, accumLine, applyGlobalDiscount,
      lineSubtotal, IGV_RATE, round2, jsRound]
  · norm_num [calculateTotals, accumulate, accumLine, applyGlobalDiscount,
      lineSubtotal, IGV_RATE, round2, jsRound]
  · norm_num [calculateTotals, accumulate, accumLine, applyGlobalDiscount,
      lineSubtotal, IGV_RATE, round2, jsRound]

/-- Witness for C1 at a concrete input. -/
theorem calculateTotals_standard_taxed_witness :
    (calculateTotals [⟨1, 500, 0, "10"⟩] 0).taxableAmount = 500 ∧
    (calculateTotals [⟨1, 500, 0, "10"⟩] 0).igv = 90 ∧
    (calculateTotals [⟨1, 500, 0, "10"⟩] 0).total = 590 :=
  have h := calculateTotals_standard_taxed [⟨1, 500, 0, "10"⟩]
    (by decide) (by decide)
  ⟨h.2.2.1, h.2.2.2.1, h.2.2.2.2⟩

/-! ### C2: the rounded-field invariant -/

/-- Upper bound for `Math.round`. -/
theorem jsRound_ub (x : ℚ) : (jsRound x : ℚ) ≤ x + 1/2 := Int.floor_le _

/-- Lower bound for `Math.round`. -/
theorem jsRound_lb (x : ℚ) : x - 1/2 < (jsRound x : ℚ) := by
  have h := Int.sub_one_lt_floor (x + 1/2)
  unfold jsRound
  linarith

/-- Rounding a sum of two terms differs from the sum of the roundings by at most
one cent. -/
theorem abs_round2_add_sub (a b : ℚ) :
    |round2 (a + b) - (round2 a + round2 b)| ≤ 1/100 := by
  set k : ℤ := jsRound ((a + b) * 100) - jsRound (a * 100) - jsRound (b * 100) with hk
  have h1 : round2 (a + b) - (round2 a + round2 b) = (k : ℚ) / 100 := by
    simp only [round2, hk]
    push_cast
    ring
  have h2 : |(k : ℚ)| < 3/2 := by
    have ha1 := jsRound_ub (a * 100); have ha2 := jsRound_lb (a * 100)
    have hb1 := jsRound_ub (b * 100); have hb2 := jsRound_lb (b * 100)
    have hc1 := jsRound_ub ((a + b) * 100); have hc2 := jsRound_lb ((a + b) * 100)
    rw [abs_lt]
    constructor <;> (push_cast [hk]; linarith)
  have h3 : |k| ≤ 1 := by
    by_contra hcon
    push_neg at hcon
    have : (2 : ℚ) ≤ |(k : ℚ)| := by
      rw [← Int.cast_abs]
      exact_mod_cast hcon
    linarith
  rw [h1, abs_div]
  have : |(k : ℚ)| ≤ 1 := by
    rw [← Int.cast_abs]
    exact_mod_cast h3
  rw [abs_of_pos (by norm_num : (0:ℚ) < 100)]
  linarith

/-- Rounding a sum of three terms differs from the sum of the roundings by at most
two cents. -/
theorem abs_round2_add3_sub (a b c : ℚ) :
    |round2 (a + b + c) - (round2 a + round2 b + round2 c)| ≤ 2/100 := by
  set k : ℤ := jsRound ((a + b + c) * 100) - jsRound (a * 100) - jsRound (b * 100)
      - jsRound (c * 100) with hk
  have h1 : round2 (a + b + c) - (round2 a + round2 b + round2 c) = (k : ℚ) / 100 := by
    simp only [round2, hk]
    push_cast
    ring
  have h2 : |(k : ℚ)| < 2 := by
    have ha1 := jsRound_ub (a * 100); have ha2 := jsRound_lb (a * 100)
    have hb1 := jsRound_ub (b * 100); have hb2 := jsRound_lb (b * 100)
    have hc1 := jsRound_ub (c * 100); have hc2 := jsRound_lb (c * 100)
    have hd1 := jsRound_ub ((a + b + c) * 100); have hd2 := jsRound_lb ((a + b + c) * 100)
    rw [abs_lt]
    constructor <;> (push_cast [hk]; linarith)
  have h3 : |k| ≤ 2 := by
    have : (|k| : ℚ) < 2 := by rw [← Int.cast_abs] at h2 ⊢; exact_mod_cast h2
    exact_mod_cast this.le
  rw [h1, abs_div, abs_of_pos (by norm_num : (0:ℚ) < 100)]
  have : |(k : ℚ)| ≤ 2 := by
    rw [← Int.cast_abs]
    exact_mod_cast h3
  linarith

/-- The input of the C2 counterexample: a standard-taxed line of 0.0167 and an
exempt line of 0.0153.  Pre-rounding: taxable 0.0167, igv 0.003006, exempt 0.0153,
subtotal 0.032, total 0.035006; after 2-decimal rounding the fields are 0.02, 0.00,
0.02, 0.03 and 0.04 (the IEEE-754 evaluation of the source rounds identically on
this input). -/
def c2Items : List RawItem := [⟨1, 167/10000, 0, "10"⟩, ⟨1, 153/10000, 0, "20"⟩]

/-- **C2 counterexample**: on `c2Items` with no global discount the rounded public
fields violate both `total == subtotal + igv` (0.04 ≠ 0.03 + 0.00) and
`subtotal == taxableAmount + exemptAmount + unaffectedAmount` (0.03 ≠ 0.04). -/
theorem calculateTotals_rounded_invariant_fails :
    (calculateTotals c2Items 0).total
      ≠ (calculateTotals c2Items 0).subtotal + (calculateTotals c2Items 0).igv ∧
    (calculateTotals c2Items 0).subtotal
      ≠ (calculateTotals c2Items 0).taxableAmount + (calculateTotals c2Items 0).exemptAmount
        + (calculateTotals c2Items 0).unaffectedAmount := by
  have hacc : accumulate c2Items = ⟨167/10000, 153/10000, 0, 0, 1503/500000⟩ := by
    simp +decide [accumulate, c2Items, accumLine, lineSubtotal, IGV_RATE, FREE_TAX_TYPES]
    norm_num
  constructor <;>
    · simp only [calculateTotals, hacc, applyGlobalDiscount_zero]
      norm_num [round2, jsRound]

/-- **C2 (amended)**: the identities `total = subtotal + igv` and
`subtotal = taxable + exempt + unaffected` hold exactly for the pre-rounding
aggregates (they are computed that way), and therefore the independently rounded
public fields satisfy them within one cent (two cents for the three-term sum),
but not exactly. -/
theorem calculateTotals_rounded_invariant_within_tolerance
    (items : List RawItem) (g : ℚ) :
    |(calculateTotals items g).total
        - ((calculateTotals items g).subtotal + (calculateTotals items g).igv)| ≤ 1/100 ∧
    |(calculateTotals items g).subtotal
        - ((calculateTotals items g).taxableAmount + (calculateTotals items g).exemptAmount
           + (calculateTotals items g).unaffectedAmount)| ≤ 2/100 := by
  constructor
  · simpa only [calculateTotals] using
      abs_round2_add_sub
        ((applyGlobalDiscount g (accumulate items)).taxable
          + (applyGlobalDiscount g (accumulate items)).exempt
          + (applyGlobalDiscount g (accumulate items)).unaffected)
        (applyGlobalDiscount g (accumulate items)).igv
  · simpa only [calculateTotals] using
      abs_round2_add3_sub
        (applyGlobalDiscount g (accumulate items)).taxable
        (applyGlobalDiscount g (accumulate items)).exempt
        (applyGlobalDiscount g (accumulate items)).unaffected

/-! ### C4: the global-discount step -/

/-- **C4**: for a positive global discount and a positive accumulated taxable
amount, `calculateTotals` subtracts `discount/(1+0.18)` from the taxable bucket and
`discount/(1+0.18)*0.18` from the tax total, leaving the exempt, unaffected and free
buckets exactly as accumulated; if the discount is zero or the taxable bucket is
zero, no bucket is changed by the discount step. -/
theorem calculateTotals_global_discount (items : List RawItem) (g : ℚ) :
    (0 < g → 0 < (accumulate items).taxable →
      (calculateTotals items g).taxableAmount
        = round2 ((accumulate items).taxable - g / (1 + IGV_RATE)) ∧
      (calculateTotals items g).igv
        = round2 ((accumulate items).igv - g / (1 + IGV_RATE) * IGV_RATE) ∧
      (calculateTotals items g).exemptAmount = round2 (accumulate items).exempt ∧
      (calculateTotals items g).unaffectedAmount = round2 (accumulate items).unaffected ∧
      (calculateTotals items g).freeAmount = round2 (accumulate items).free) ∧
    ((g = 0 ∨ (accumulate items).taxable = 0) →
      (calculateTotals items g).taxableAmount = round2 (accumulate items).taxable ∧
      (calculateTotals items g).igv = round2 (accumulate items).igv ∧
      (calculateTotals items g).exemptAmount = round2 (accumulate items).exempt ∧
      (calculateTotals items g).unaffectedAmount = round2 (accumulate items).unaffected ∧
      (calculateTotals items g).freeAmount = round2 (accumulate items).free) := by
  constructor
  · intro hg ht
    simp only [calculateTotals, applyGlobalDiscount, if_pos (And.intro hg ht)]
    exact ⟨trivial, trivial, trivial, trivial, trivial⟩
  · intro h
    have hcond : ¬ (0 < g ∧ 0 < (accumulate items).taxable) := by
      rcases h with h | h <;> rw [h] <;> simp
    simp only [calculateTotals, applyGlobalDiscount, if_neg hcond]
    exact ⟨trivial, trivial, trivial, trivial, trivial⟩

/-- Witness for C4: one taxed line of 100 with global discount 11.8 yields
taxable 90 and igv 16.2; with discount 0 the buckets are untouched. -/
theorem calculateTotals_global_discount_witness :
    (calculateTotals [⟨1, 100, 0, "10"⟩] (59/5)).taxableAmount = 90 ∧
    (calculateTotals [⟨1, 100, 0, "10"⟩] (59/5)).igv = 81/5 ∧
    (calculateTotals [⟨1, 100, 0, "10"⟩] (59/5)).exemptAmount = 0 ∧
    (calculateTotals [⟨1, 100, 0, "10"⟩] 0).taxableAmount = 100 := by
  have hacc : accumulate [⟨1, 100, 0, "10"⟩] = ⟨100, 0, 0, 0, 18⟩ := by
    simp +decide [accumulate, accumLine, lineSubtotal, IGV_RATE]
    norm_num
  have h1 := (calculateTotals_global_discount [⟨1, 100, 0, "10"⟩] (59/5)).1
    (by norm_num) (by rw [hacc]; norm_num)
  have h2 := (calculateTotals_global_discount [⟨1, 100, 0, "10"⟩] 0).2 (Or.inl rfl)
  refine ⟨?_, ?_, ?_, ?_⟩
  · rw [h1.1, hacc]; norm_num [IGV_RATE, round2, jsRound]
  · rw [h1.2.1, hacc]; norm_num [IGV_RATE, round2, jsRound]
  · rw [h1.2.2.1, hacc]; norm_num [round2, jsRound]
  · rw [h2.1, hacc]; norm_num [round2, jsRound]

/-! ## Totals validator (`validateTotals`, packages/sunat/src/utils/xml-signer.ts
lines 350-398) -/

/-- Rendering helper for a non-negative value: round to the nearest cent and print
with exactly two decimals. -/
def toFixed2Nonneg (x : ℚ) : String :=
  let n := (jsRound (x * 100)).toNat
  let r := n % 100
  (n / 100).repr ++ "." ++ (if r < 10 then "0" ++ r.repr else r.repr)

/-- Model of JavaScript `Number#toFixed(2)`: round to the nearest multiple of 0.01
(ties away from zero) and render with two decimals.  Used only to build the
validator's mismatch messages. -/
def toFixed2 (x : ℚ) : String :=
  if x < 0 then "-" ++ toFixed2Nonneg (-x) else toFixed2Nonneg x

/-- One stored line item as seen by `validateTotals`: its stored taxable base, tax
amount and total (`Number(...)` coercions already applied). -/
structure VtItem where
  taxableBase : ℚ
  igvAmount : ℚ
  total : ℚ
deriving DecidableEq, Repr

/-- The document view consumed by `validateTotals`: the stored items and the
declared document-level figures. -/
structure VtDoc where
  items : List VtItem
  taxableAmount : ℚ
  igv : ℚ
  total : ℚ
deriving DecidableEq, Repr

/-- `expectedTaxable`: re-sum of the items' stored taxable bases. -/
def vtExpectedTaxable (d : VtDoc) : ℚ := (d.items.map VtItem.taxableBase).sum

/-- `expectedIgv`: re-sum of the items' stored tax amounts. -/
def vtExpectedIgv (d : VtDoc) : ℚ := (d.items.map VtItem.igvAmount).sum

/-- `expectedTotal`: re-sum of the items' stored totals. -/
def vtExpectedTotal (d : VtDoc) : ℚ := (d.items.map VtItem.total).sum

/-- `const tolerance = 0.01`. -/
def VALIDATE_TOLERANCE : ℚ := 1/100

/-- The `errors` array accumulated by `validateTotals`: one message per field whose
re-summed value differs from the declared one by strictly more than the tolerance. -/
def validateTotalsErrors (d : VtDoc) : List String :=
  (if VALIDATE_TOLERANCE < |vtExpectedTaxable d - d.taxableAmount| then
    ["Base imponible no coincide: esperado " ++ toFixed2 (vtExpectedTaxable d)
      ++ ", actual " ++ toFixed2 d.taxableAmount]
   else [])
  ++ (if VALIDATE_TOLERANCE < |vtExpectedIgv d - d.igv| then
    ["IGV no coincide: esperado " ++ toFixed2 (vtExpectedIgv d)
      ++ ", actual " ++ toFixed2 d.igv]
   else [])
  ++ (if VALIDATE_TOLERANCE < |vtExpectedTotal d - d.total| then
    ["Total no coincide: esperado " ++ toFixed2 (vtExpectedTotal d)
      ++ ", actual " ++ toFixed2 d.total]
   else [])

/-- `validateTotals(document)`: `{ valid: errors.length === 0, errors }`. -/
def validateTotals (d : VtDoc) : Bool × List String :=
  ((validateTotalsErrors d).isEmpty, validateTotalsErrors d)

/-- The IEEE-754 double value of the JavaScript literal `118.01`, namely
`8304215500406129 / 2^46`.  It exceeds the exact decimal 118.01 by about 5.1e-15,
so its distance from 118 is strictly greater than 0.01 — which is why the source,
evaluating in doubles, flags a declared total of `118.01` against items summing to
`118.00`. -/
def js118_01 : ℚ := 8304215500406129 / 70368744177664

/-- `valid` is true exactly when none of the three strict-tolerance checks fires. -/
theorem validateTotals_valid_iff (d : VtDoc) :
    (validateTotals d).1 = true ↔
      (¬ VALIDATE_TOLERANCE < |vtExpectedTaxable d - d.taxableAmount| ∧
       ¬ VALIDATE_TOLERANCE < |vtExpectedIgv d - d.igv| ∧
       ¬ VALIDATE_TOLERANCE < |vtExpectedTotal d - d.total|) := by
  unfold validateTotals validateTotalsErrors
  split_ifs <;> simp_all

/-- **C3**: `validateTotals` re-sums each item's stored taxable base, tax amount and
total, compares each sum with the declared `taxableAmount`, `igv` and `total` with
absolute tolerance 0.01, and reports one mismatch message per failing field; items
summing to taxable=100, igv=18, total=118 pass with a declared total of 118.00 and
fail with a total-mismatch error for a declared total of 118.01 (whose IEEE-754
double value sits 0.01000000000000512 away from 118). -/
theorem validateTotals_spec :
    (∀ d : VtDoc, (validateTotals d).1 = true ↔
        (|vtExpectedTaxable d - d.taxableAmount| ≤ VALIDATE_TOLERANCE ∧
         |vtExpectedIgv d - d.igv| ≤ VALIDATE_TOLERANCE ∧
         |vtExpectedTotal d - d.total| ≤ VALIDATE_TOLERANCE)) ∧
    (∀ d : VtDoc, (validateTotals d).2.length =
        (if VALIDATE_TOLERANCE < |vtExpectedTaxable d - d.taxableAmount| then 1 else 0)
        + (if VALIDATE_TOLERANCE < |vtExpectedIgv d - d.igv| then 1 else 0)
        + (if VALIDATE_TOLERANCE < |vtExpectedTotal d - d.total| then 1 else 0)) ∧
    validateTotals ⟨[⟨100, 18, 118⟩], 100, 18, js118_01⟩
      = (false, ["Total no coincide: esperado 118.00, actual 118.01"]) ∧
    validateTotals ⟨[⟨100, 18, 118⟩], 100, 18, 118⟩ = (true, []) := by
  have hsumT : vtExpectedTaxable ⟨[⟨100, 18, 118⟩], 100, 18, js118_01⟩ = 100 := by
    simp [vtExpectedTaxable]
  have hsumI : vtExpectedIgv ⟨[⟨100, 18, 118⟩], 100, 18, js118_01⟩ = 18 := by
    simp [vtExpectedIgv]
  have hsumTo : vtExpectedTotal ⟨[⟨100, 18, 118⟩], 100, 18, js118_01⟩ = 118 := by
    simp [vtExpectedTotal]
  have habs : VALIDATE_TOLERANCE < |(118 : ℚ) - js118_01| := by
    rw [abs_sub_comm, abs_of_pos (by norm_num [js118_01])]
    norm_num [js118_01, VALIDATE_TOLERANCE]
  have hfixA : toFixed2 118 = "118.00" := by
    have h : jsRound ((118 : ℚ) * 100) = 11800 := by norm_num [jsRound]
    rw [toFixed2, if_neg (by norm_num), toFixed2Nonneg, h]
    rfl
  have hfixB : toFixed2 js118_01 = "118.01" := by
    have h : jsRound (js118_01 * 100) = 11801 := by norm_num [js118_01, jsRound]
    rw [toFixed2, if_neg (by norm_num [js118_01]), toFixed2Nonneg, h]
    rfl
  refine ⟨?_, ?_, ?_, ?_⟩
  · intro d
    rw [validateTotals_valid_iff]
    simp only [not_lt]
  · intro d
    unfold validateTotals validateTotalsErrors
    split_ifs <;> simp
  · have hm : validateTotalsErrors ⟨[⟨100, 18, 118⟩], 100, 18, js118_01⟩
        = ["Total no coincide: esperado 118.00, actual 118.01"] := by
      unfold validateTotalsErrors
      rw [hsumT, hsumI, hsumTo]
      rw [if_neg (by norm_num [VALIDATE_TOLERANCE]), if_neg (by norm_num [VALIDATE_TOLERANCE]),
        if_pos habs, hfixA, hfixB]
      rfl
    unfold validateTotals
    rw [hm]
    rfl
  · have hm : validateTotalsErrors ⟨[⟨100, 18, 118⟩], 100, 18, 118⟩ = [] := by
      unfold validateTotalsErrors
      norm_num [vtExpectedTaxable, vtExpectedIgv, vtExpectedTotal, VALIDATE_TOLERANCE]
    unfold validateTotals
    rw [hm]
    rfl

/-! ## RUC validation (`validateRuc`, packages/sunat/src/utils/xml-signer.ts
lines 260-283) -/

/-- The digit values of the string's characters (`parseInt(ruc[i], 10)` per
character; all characters are decimal digits whenever the regex test passed). -/
def rucDigits (ruc : String) : List ℕ := ruc.data.map (fun c => c.toNat - 48)

/-- The regular-expression test `/^[0-9]{11}$/`. -/
def isElevenDigits (ruc : String) : Bool :=
  ruc.length = 11 && ruc.data.all Char.isDigit

/-- `const validPrefixes = ['10', '15', '17', '20']`. -/
def RUC_VALID_PREFIXES : List String := ["10", "15", "17", "20"]

/-- `validPrefixes.some((prefix) => ruc.startsWith(prefix))`. -/
def rucHasValidStart (ruc : String) : Bool :=
  RUC_VALID_PREFIXES.any (fun p => p.data.isPrefixOf ruc.data)

/-- `const weights = [5, 4, 3, 2, 7, 6, 5, 4, 3, 2]`. -/
def RUC_WEIGHTS : List ℕ := [5, 4, 3, 2, 7, 6, 5, 4, 3, 2]

/-- The weighted sum over the first ten digits and the derived check digit:
`remainder === 0 ? 0 : remainder === 1 ? 1 : 11 - remainder`. -/
def rucCheckDigit (ds : List ℕ) : ℕ :=
  let sum := (((ds.take 10).zip RUC_WEIGHTS).map (fun p => p.1 * p.2)).sum
  let remainder := sum % 11
  if remainder = 0 then 0 else if remainder = 1 then 1 else 11 - remainder

/-- `validateRuc(ruc)`: regex test, then the `10/15/17/20` start check, then the
weighted mod-11 checksum against the eleventh digit. -/
def validateRuc (ruc : String) : Bool :=
  if isElevenDigits ruc then
    if rucHasValidStart ruc then
      rucCheckDigit (rucDigits ruc) == (rucDigits ruc).getD 10 0
    else false
  else false

/-- **C9**: an 11-digit string whose first two characters are not `10`, `15`, `17`
or `20` is rejected; an 11-digit string with a valid two-digit start is accepted
exactly when its last digit equals the check digit of the weighted mod-11 algorithm
over its first ten digits, and rejected on any mismatch. -/
theorem validateRuc_spec (ruc : String)
    (hlen : ruc.length = 11) (hdig : ruc.data.all Char.isDigit = true) :
    (rucHasValidStart ruc = false → validateRuc ruc = false) ∧
    (rucHasValidStart ruc = true →
      ((rucDigits ruc).getD 10 0 = rucCheckDigit (rucDigits ruc) →
        validateRuc ruc = true) ∧
      ((rucDigits ruc).getD 10 0 ≠ rucCheckDigit (rucDigits ruc) →
        validateRuc ruc = false)) := by
  have he : isElevenDigits ruc = true := by
    simp [isElevenDigits, hlen, hdig]
  refine ⟨?_, ?_⟩
  · intro hp
    simp [validateRuc, he, hp]
  · intro hp
    refine ⟨?_, ?_⟩
    · intro hc
      simp [validateRuc, he, hp, beq_iff_eq]
      simpa [List.getD] using hc.symm
    · intro hc
      simp [validateRuc, he, hp, beq_iff_eq]
      exact fun h => hc (by simpa [List.getD] using h.symm)

/-- Witness for C9: `20123456786` carries the correct check digit 6 (weighted sum
148, remainder 5, check 11-5=6) and is accepted; changing the last digit to 0 is
rejected; the start `30` is rejected outright. -/
theorem validateRuc_spec_witness :
    validateRuc "20123456786" = true ∧
    validateRuc "20123456780" = false ∧
    validateRuc "30123456786" = false := by
  refine ⟨?_, ?_, ?_⟩
  · exact ((validateRuc_spec "20123456786" (by decide) (by decide)).2 (by decide)).1
      (by decide)
  · exact ((validateRuc_spec "20123456780" (by decide) (by decide)).2 (by decide)).2
      (by decide)
  · exact (validateRuc_spec "30123456786" (by decide) (by decide)).1 (by decide)

/-! ## Number-to-words converter (packages/sunat/src/utils/number-to-words.ts)

The conversion tables and the four `convert*` helpers, modelled on `ℕ`.  The
source's helpers are only ever invoked on the non-negative integer part of a
monetary amount (`Math.floor(amount)` and its quotients/remainders); array
accesses are modelled with `List.getD _ ""`, which agrees with the source on
every in-range index, and every index reached from a natural input is in range. -/

def UNITS : List String :=
  ["", "UNO", "DOS", "TRES", "CUATRO", "CINCO", "SEIS", "SIETE", "OCHO", "NUEVE"]

def TENS : List String :=
  ["", "DIEZ", "VEINTE", "TREINTA", "CUARENTA", "CINCUENTA", "SESENTA", "SETENTA",
   "OCHENTA", "NOVENTA"]

def TEENS : List String :=
  ["DIEZ", "ONCE", "DOCE", "TRECE", "CATORCE", "QUINCE", "DIECISEIS", "DIECISIETE",
   "DIECIOCHO", "DIECINUEVE"]

def TWENTIES : List String :=
  ["VEINTE", "VEINTIUNO", "VEINTIDOS", "VEINTITRES", "VEINTICUATRO", "VEINTICINCO",
   "VEINTISEIS", "VEINTISIETE", "VEINTIOCHO", "VEINTINUEVE"]

def HUNDREDS : List String :=
  ["", "CIENTO", "DOSCIENTOS", "TRESCIENTOS", "CUATROCIENTOS", "QUINIENTOS",
   "SEISCIENTOS", "SETECIENTOS", "OCHOCIENTOS", "NOVECIENTOS"]

/-- One `{ singular, plural, cents }` entry of `CURRENCY_NAMES`. -/
structure CurrencyInfo where
  singular : String
  plural : String
  cents : String
deriving DecidableEq, Repr

/-- `CURRENCY_NAMES`: the three supported currencies. -/
def CURRENCY_NAMES : List (String × CurrencyInfo) :=
  [("PEN", ⟨"SOL", "SOLES", "CENTIMOS"⟩),
   ("USD", ⟨"DOLAR", "DOLARES", "CENTAVOS"⟩),
   ("EUR", ⟨"EURO", "EUROS", "CENTIMOS"⟩)]

/-- `convertTens(n)` for `0 ≤ n < 100` (its domain of use). -/
def convertTens (n : ℕ) : String :=
  if n = 0 then ""
  else if n < 10 then UNITS.getD n ""
  else if n < 20 then TEENS.getD (n - 10) ""
  else if n < 30 then TWENTIES.getD (n - 20) ""
  else
    let tens := n / 10
    let units := n % 10
    if units = 0 then TENS.getD tens ""
    else TENS.getD tens "" ++ " Y " ++ UNITS.getD units ""

/-- `convertHundreds(n)`; the JavaScript `result += (result ? ' ' : '') + ...`
appends a separating space only when the accumulated string is non-empty. -/
def convertHundreds (n : ℕ) : String :=
  if n = 0 then ""
  else if n = 100 then "CIEN"
  else
    let hundreds := n / 100
    let remainder := n % 100
    let result := HUNDREDS.getD hundreds ""
    if 0 < remainder then
      result ++ (if result ≠ "" then " " else "") ++ convertTens remainder
    else result

/-- `convertThousands(n)`. -/
def convertThousands (n : ℕ) : String :=
  if n = 0 then ""
  else if n = 1000 then "MIL"
  else
    let thousands := n / 1000
    let remainder := n % 1000
    let result :=
      if thousands = 1 then "MIL"
      else if 0 < thousands then convertHundreds thousands ++ " MIL"
      else ""
    if 0 < remainder then
      result ++ (if result ≠ "" then " " else "") ++ convertHundreds remainder
    else result

/-- `convertMillions(n)`; returns `"CERO"` for zero (both via the early return and
the final `result || 'CERO'`). -/
def convertMillions (n : ℕ) : String :=
  if n = 0 then "CERO"
  else
    let millions := n / 1000000
    let remainder := n % 1000000
    let result :=
      if millions = 1 then "UN MILLON"
      else if 0 < millions then convertThousands millions ++ " MILLONES"
      else ""
    let result :=
      if 0 < remainder then
        result ++ (if result ≠ "" then " " else "") ++ convertThousands remainder
      else result
    if result = "" then "CERO" else result

/-- `decimalPart.toString().padStart(2, '0')` for the cents value. -/
def padStart2 (n : ℤ) : String :=
  let s := if n < 0 then "-" ++ n.natAbs.repr else n.toNat.repr
  if s.length < 2 then "0" ++ s else s

/-- The member names a plain JavaScript object literal inherits from
`Object.prototype`.  For these keys the bracket lookup `CURRENCY_NAMES[currency]`
finds a truthy inherited function (an object, for `__proto__`), so the
`|| CURRENCY_NAMES.PEN` fallback is *not* taken. -/
def OBJECT_PROTOTYPE_KEYS : List String :=
  ["constructor", "hasOwnProperty", "isPrototypeOf", "propertyIsEnumerable",
   "toLocaleString", "toString", "valueOf", "__proto__", "__defineGetter__",
   "__defineSetter__", "__lookupGetter__", "__lookupSetter__"]

/-- `numberToWords(amount, currency = 'PEN')`: integer part in words, cents as
`round((amount - floor(amount)) * 100)` zero-padded to two digits, and the
singular currency name exactly when the integer part equals 1.  The lookup
`CURRENCY_NAMES[currency] || CURRENCY_NAMES.PEN` follows JavaScript property
semantics: an own property (`PEN`/`USD`/`EUR`) yields that currency's names; a
key inherited from `Object.prototype` (e.g. `'toString'`) yields a truthy
function, so the `||` fallback is not taken and the template then interpolates
the function's missing `singular`/`plural` fields as the text `"undefined"`;
only for every other key does the lookup yield `undefined` (falsy) and the `||`
fall back to the PEN entry.  The integer part is passed to the word tables via
`Int.toNat`, faithful to the source for the non-negative monetary amounts it is
applied to. -/
def numberToWords (amount : ℚ) (currency : String := "PEN") : String :=
  let currencyInfo : CurrencyInfo :=
    match CURRENCY_NAMES.lookup currency with
    | some info => info
    | none =>
      if currency ∈ OBJECT_PROTOTYPE_KEYS then ⟨"undefined", "undefined", "undefined"⟩
      else ⟨"SOL", "SOLES", "CENTIMOS"⟩
  let integerPart : ℤ := ⌊amount⌋
  let decimalPart : ℤ := jsRound ((amount - (integerPart : ℚ)) * 100)
  let integerWords := convertMillions integerPart.toNat
  let currencyName := if integerPart = 1 then currencyInfo.singular else currencyInfo.plural
  let decimalStr := padStart2 decimalPart
  integerWords ++ " CON " ++ decimalStr ++ "/100 " ++ currencyName

/-- **C8**: the fixed cases of `numberToWords`: zero renders `"CERO CON 00/100
SOLES"`; one uses the singular `"SOL"`; the integer-word segment of 100 is exactly
`"CIEN"`; 1234.56 renders `"MIL DOSCIENTOS TREINTA Y CUATRO CON 56/100 SOLES"`;
and in general the cents are `round((amount - floor(amount)) * 100)` zero-padded
to two digits. -/
theorem numberToWords_fixed_cases :
    numberToWords 0 "PEN" = "CERO CON 00/100 SOLES" ∧
    numberToWords 1 "PEN" = "UNO CON 00/100 SOL" ∧
    (∃ p, numberToWords 1 "PEN" = p ++ "SOL") ∧
    convertMillions 100 = "CIEN" ∧
    numberToWords 100 "PEN" = "CIEN CON 00/100 SOLES" ∧
    numberToWords (123456/100) "PEN"
      = "MIL DOSCIENTOS TREINTA Y CUATRO CON 56/100 SOLES" ∧
    (∀ amount : ℚ,
      numberToWords amount "PEN"
        = convertMillions (⌊amount⌋).toNat ++ " CON "
          ++ padStart2 (jsRound ((amount - (⌊amount⌋ : ℚ)) * 100)) ++ "/100 "
          ++ (if ⌊amount⌋ = 1 then "SOL" else "SOLES")) := by
  have h1 : numberToWords 1 "PEN" = "UNO CON 00/100 SOL" := by
    simp only [numberToWords]
    norm_num [jsRound]
    decide
  refine ⟨?_, h1, ⟨"UNO CON 00/100 ", by rw [h1]; rfl⟩, by decide, ?_, ?_, ?_⟩
  · simp only [numberToWords]
    norm_num [jsRound]
    decide
  · simp only [numberToWords]
    norm_num [jsRound]
    decide
  · simp only [numberToWords]
    norm_num [jsRound]
    decide
  · intro amount
    rfl

/-- Evaluation of the own-property lookup at the PEN key. -/
theorem lookup_currency_names_pen :
    CURRENCY_NAMES.lookup "PEN" = some ⟨"SOL", "SOLES", "CENTIMOS"⟩ := by
  decide

/-- **C10 counterexample**: the currency code `"toString"` is not one of PEN, USD
and EUR, yet `numberToWords` does not fall back to the PEN names: the bracket
lookup finds the truthy inherited `Object.prototype.toString` function, the `||`
is not taken, and the missing name fields render as the text `"undefined"`. -/
theorem numberToWords_prototype_key_no_fallback :
    numberToWords 0 "toString" = "CERO CON 00/100 undefined" ∧
    numberToWords 0 "toString" ≠ numberToWords 0 "PEN" := by
  have hA : numberToWords 0 "toString" = "CERO CON 00/100 undefined" := by
    simp only [numberToWords]
    norm_num [jsRound]
    decide
  have hB : numberToWords 0 "PEN" = "CERO CON 00/100 SOLES" := by
    simp only [numberToWords]
    norm_num [jsRound]
    decide
  refine ⟨hA, ?_⟩
  rw [hA, hB]
  decide

/-- **C10 (amended)**: for a currency code other than PEN, USD and EUR that is
also not an `Object.prototype` member name, `numberToWords` falls back to the PEN
names — its output is exactly the output for `'PEN'`, ending in `"SOL"` when the
integer part is 1 and in `"SOLES"` otherwise; for an `Object.prototype` member
name (e.g. `'toString'`) the inherited lookup hit suppresses the fallback and the
currency name renders as `"undefined"`, so the output differs from the PEN
rendering. -/
theorem numberToWords_unknown_currency (amount : ℚ) (currency : String)
    (h : currency ∉ ["PEN", "USD", "EUR"]) :
    (currency ∉ OBJECT_PROTOTYPE_KEYS →
      numberToWords amount currency = numberToWords amount "PEN" ∧
      (⌊amount⌋ = 1 → ∃ p, numberToWords amount currency = p ++ "SOL") ∧
      (⌊amount⌋ ≠ 1 → ∃ p, numberToWords amount currency = p ++ "SOLES")) ∧
    (currency ∈ OBJECT_PROTOTYPE_KEYS →
      (∃ p, numberToWords amount currency = p ++ "undefined") ∧
      numberToWords amount currency ≠ numberToWords amount "PEN") := by
  have h1 : currency ≠ "PEN" := by simp_all
  have h2 : currency ≠ "USD" := by simp_all
  have h3 : currency ≠ "EUR" := by simp_all
  have hl : CURRENCY_NAMES.lookup currency = none := by
    have b1 : (currency == "PEN") = false := beq_eq_false_iff_ne.mpr h1
    have b2 : (currency == "USD") = false := beq_eq_false_iff_ne.mpr h2
    have b3 : (currency == "EUR") = false := beq_eq_false_iff_ne.mpr h3
    simp [CURRENCY_NAMES, List.lookup, b1, b2, b3]
  refine ⟨?_, ?_⟩
  · intro hp
    refine ⟨?_, ?_, ?_⟩
    · simp only [numberToWords, hl, lookup_currency_names_pen]
      rw [if_neg hp]
    · intro hi
      refine ⟨convertMillions (⌊amount⌋).toNat ++ " CON "
        ++ padStart2 (jsRound ((amount - (⌊amount⌋ : ℚ)) * 100)) ++ "/100 ", ?_⟩
      simp only [numberToWords, hl, hi]
      rw [if_neg hp]
      simp
    · intro hi
      refine ⟨convertMillions (⌊amount⌋).toNat ++ " CON "
        ++ padStart2 (jsRound ((amount - (⌊amount⌋ : ℚ)) * 100)) ++ "/100 ", ?_⟩
      simp only [numberToWords, hl, if_neg hi]
      rw [if_neg hp]
  · intro hp
    have hA : numberToWords amount currency
        = (convertMillions (⌊amount⌋).toNat ++ " CON "
          ++ padStart2 (jsRound ((amount - (⌊amount⌋ : ℚ)) * 100)) ++ "/100 ")
          ++ "undefined" := by
      simp only [numberToWords, hl]
      rw [if_pos hp]
      simp only [ite_self]
    have hB : numberToWords amount "PEN"
        = (convertMillions (⌊amount⌋).toNat ++ " CON "
          ++ padStart2 (jsRound ((amount - (⌊amount⌋ : ℚ)) * 100)) ++ "/100 ")
          ++ (if ⌊amount⌋ = 1 then "SOL" else "SOLES") := by
      simp only [numberToWords, lookup_currency_names_pen]
    refine ⟨⟨_, hA⟩, ?_⟩
    intro hcontra
    rw [hA, hB] at hcontra
    have hlen := congrArg String.length hcontra
    simp only [String.length_append] at hlen
    have e1 : ("undefined" : String).length = 9 := rfl
    by_cases hi : ⌊amount⌋ = 1
    · rw [if_pos hi] at hlen
      have e2 : ("SOL" : String).length = 3 := rfl
      rw [e1, e2] at hlen
      omega
    · rw [if_neg hi] at hlen
      have e2 : ("SOLES" : String).length = 5 := rfl
      rw [e1, e2] at hlen
      omega

/-- Witness for the amended C10: `"ABC"` (not a prototype key) renders exactly as
`'PEN'` and ends in `"SOLES"`; `"toString"` (a prototype key) renders with
`"undefined"` as the currency name and differs from the PEN rendering. -/
theorem numberToWords_unknown_currency_witness :
    numberToWords (7/2) "ABC" = numberToWords (7/2) "PEN" ∧
    (∃ p, numberToWords (7/2) "ABC" = p ++ "SOLES") ∧
    (∃ p, numberToWords 0 "toString" = p ++ "undefined") ∧
    numberToWords 0 "toString" ≠ numberToWords 0 "PEN" := by
  have h1 := (numberToWords_unknown_currency (7/2) "ABC" (by decide)).1 (by decide)
  have h2 := (numberToWords_unknown_currency 0 "toString" (by decide)).2 (by decide)
  exact ⟨h1.1, h1.2.2 (by norm_num), h2.1, h2.2⟩

/-! ## Transport adapters (packages/sunat/src/adapters)

The adapter layer is modelled at the level of its document-dependent control flow:
network and randomness effects are passed in as explicit arguments (the outcome of
the `fetch`, a pre-drawn mock hash), and the functions compute exactly what the
source computes from them.  Only the document fields the modelled code reads are
retained in the document structure. -/

/-- The canonical adapter result statuses (`SunatResponseStatus`). -/
inductive SunatStatus
  | accepted
  | rejected
  | observed
  | exception
  | pending
deriving DecidableEq, Repr

/-- `SunatResponse` (packages/sunat/src/types): absent optional fields are `none`. -/
structure SunatResponse where
  success : Bool
  status : SunatStatus
  responseCode : Option String := none
  responseMessage : Option String := none
  notes : Option (List String) := none
  hash : Option String := none
  ticket : Option String := none
  cdrData : Option String := none
  xmlSigned : Option String := none
deriving DecidableEq, Repr

/-- The customer sub-object of `DocumentWithItems`. -/
structure DocCustomer where
  documentType : String
  documentNumber : String
  name : String
  address : Option String := none
deriving DecidableEq, Repr

/-- The tenant sub-object of `DocumentWithItems` (fields read by the adapters). -/
structure DocTenant where
  ruc : String
  name : String
deriving DecidableEq, Repr

/-- One document line as the adapters see it (only its presence matters to the
modelled control flow). -/
structure DocItem where
  description : String
deriving DecidableEq, Repr

/-- `DocumentWithItems` restricted to the fields the modelled adapter code reads:
type, series, number, the item list and the optional customer and tenant. -/
structure DocumentWithItems where
  type : String
  series : String
  number : String
  items : List DocItem
  customer : Option DocCustomer := none
  tenant : Option DocTenant := none
deriving DecidableEq, Repr

/-- JavaScript `a || b` for an optional string: `undefined` and the empty string
are falsy. -/
def jsOrString (a : Option String) (b : String) : String :=
  match a with
  | some s => if s = "" then b else s
  | none => b

/-- `BaseSunatAdapter.validateDocument` (packages/sunat/src/adapters/base): throws
on a missing/falsy tenant RUC, a missing customer, or an empty item list, in that
order. -/
def BaseSunatAdapter.validateDocument (doc : DocumentWithItems) : Except String Unit := do
  match doc.tenant with
  | none => throw "Document must have a tenant with RUC"
  | some t => if t.ruc = "" then throw "Document must have a tenant with RUC" else pure ()
  match doc.customer with
  | none => throw "Document must have a customer"
  | some _ => pure ()
  if doc.items.isEmpty then throw "Document must have at least one item" else pure ()

/-- `BaseSunatAdapter.getDocumentFilename`: `document.tenant?.ruc || this.config.ruc`
followed by `-type-series-number`. -/
def BaseSunatAdapter.getDocumentFilename (configRuc : String) (doc : DocumentWithItems) :
    String :=
  let ruc := jsOrString (doc.tenant.map DocTenant.ruc) configRuc
  ruc ++ "-" ++ doc.type ++ "-" ++ doc.series ++ "-" ++ doc.number

/-! ### Nubefact (OSE/REST) adapter (packages/sunat/src/adapters/nubefact) -/

/-- The provider response body (`NubefactResponse`), after `response.json()`. -/
structure NubefactResponse where
  sunat_description : Option String := none
  sunat_note : Option String := none
  sunat_responsecode : Option String := none
  sunat_soap_error : Option String := none
  codigo_hash : Option String := none
  aceptada_por_sunat : Option Bool := none
  errors : Option (List String) := none
  errores : Option (List String) := none
deriving DecidableEq, Repr

/-- The outcome of the `fetch` + `response.json()` pair inside the adapter's `try`
block: either both resolved (with `ok = response.ok`, true exactly for 2xx) or a
JavaScript error was thrown (network failure, timeout, invalid JSON body). -/
inductive FetchOutcome
  | resolved (ok : Bool) (body : NubefactResponse)
  | thrown (message : String)
deriving DecidableEq, Repr

/-- `NubefactAdapter.sendDocument`, as a function of the transport outcome.  The
request payload (`mapToNubefact(document)`) influences only what the remote server
answers, which the model abstracts as the `outcome` argument; the adapter performs
no validation of the document, and its returned `SunatResponse` is computed from
the outcome alone.  An empty `errors`/`errores` array is truthy in JavaScript, so
its mere presence selects the rejection branch. -/
def NubefactAdapter.sendDocument (doc : DocumentWithItems) (outcome : FetchOutcome) :
    SunatResponse :=
  match outcome with
  | .thrown msg =>
      { success := false
        status := .exception
        responseCode := some "ERROR"
        responseMessage := some msg }
  | .resolved ok body =>
      if ok = false ∨ body.errors ≠ none ∨ body.errores ≠ none then
        let errs := (body.errors.getD (body.errores.getD ["Unknown error"]))
        { success := false
          status := .rejected
          responseCode := some (jsOrString body.sunat_responsecode "ERROR")
          responseMessage := some (String.intercalate ", " errs) }
      else
        { success := body.aceptada_por_sunat = some true
          status := if body.aceptada_por_sunat = some true then .accepted else .rejected
          responseCode := some (jsOrString body.sunat_responsecode "0")
          responseMessage := some (jsOrString body.sunat_description "Documento procesado")
          notes := match body.sunat_note with
                   | some n => if n = "" then none else some [n]
                   | none => none
          hash := body.codigo_hash }

/-! ### Direct adapter error handling (packages/sunat/src/adapters/direct) -/

/-- Whitespace characters recognised by the `\s` class of the source's
`/faultcode:\s*(\d+)/` pattern (the ASCII ones; the adapters only ever feed it
ASCII error messages). -/
def jsWhitespace (c : Char) : Bool :=
  c = ' ' ∨ c = '\t' ∨ c = '\n' ∨ c = '\r' ∨ c = '\x0b' ∨ c = '\x0c'

/-- Attempt to match `faultcode:\s*(\d+)` at the head of a character list,
returning the captured digit group. -/
def matchFaultcodeHere (cs : List Char) : Option String :=
  if "faultcode:".data.isPrefixOf cs then
    let ds := ((cs.drop 10).dropWhile jsWhitespace).takeWhile Char.isDigit
    if ds.isEmpty then none else some (String.mk ds)
  else none

/-- First match of `faultcode:\s*(\d+)` anywhere in the list (the semantics of
`String#match` with an unanchored pattern). -/
def matchFaultcode : List Char → Option String
  | [] => none
  | c :: rest =>
      match matchFaultcodeHere (c :: rest) with
      | some code => some code
      | none => matchFaultcode rest

/-- `DirectAdapter.handleError` (direct/index.ts lines 330-350): every caught error
becomes a structured result with status `exception`; a SOAP fault code found in the
message is surfaced as the response code, otherwise `'ERROR'`. -/
def DirectAdapter.handleError (errorMessage : String) : SunatResponse :=
  match matchFaultcode errorMessage.data with
  | some code =>
      { success := false
        status := .exception
        responseCode := some code
        responseMessage := some errorMessage }
  | none =>
      { success := false
        status := .exception
        responseCode := some "ERROR"
        responseMessage := some errorMessage }

/-! ### UTF-8 and base64 byte-level codecs

`Buffer.from(s, 'utf8')` and `Buffer#toString('utf8')` are modelled by an explicit
UTF-8 codec on `List ℕ` byte values; `Buffer#toString('base64')` by an explicit
base64 encoder.  The strict decoder returns `none` on ill-formed input (where Node
would substitute U+FFFD); every use in this development decodes only well-formed
output of the encoder. -/

/-- UTF-8 encoding of one character (by code point; Lean's `Char` carries exactly
the valid Unicode scalar values). -/
def utf8EncodeChar (c : Char) : List ℕ :=
  let n := c.toNat
  if n < 128 then [n]
  else if n < 2048 then [192 + n / 64, 128 + n % 64]
  else if n < 65536 then [224 + n / 4096, 128 + n / 64 % 64, 128 + n % 64]
  else [240 + n / 262144, 128 + n / 4096 % 64, 128 + n / 64 % 64, 128 + n % 64]

/-- UTF-8 encoding of a string (model of `Buffer.from(s, 'utf8')`). -/
def utf8Encode (s : String) : List ℕ := (s.data.map utf8EncodeChar).flatten

/-!
Strict UTF-8 decoding (model of `Buffer#toString('utf8')` on well-formed input):
rejects truncated sequences, bad continuation bytes, overlong forms, surrogate
code points and out-of-range values.  The continuation handling for the 2-, 3-
and 4-byte forms lives in the three companion functions.
-/
mutual

/-- Strict UTF-8 decoding of a byte list. -/
def utf8Decode : List ℕ → Option (List Char)
  | [] => some []
  | b :: rest =>
    if b < 128 then (utf8Decode rest).map (fun cs => Char.ofNat b :: cs)
    else if b < 192 then none
    else if b < 224 then utf8DecodeTail2 b rest
    else if b < 240 then utf8DecodeTail3 b rest
    else if b < 248 then utf8DecodeTail4 b rest
    else none

/-- Continuation of `utf8Decode` for a 2-byte sequence beginning with `b`. -/
def utf8DecodeTail2 (b : ℕ) : List ℕ → Option (List Char)
  | b1 :: rest =>
      if 128 ≤ b1 ∧ b1 < 192 then
        let n := (b - 192) * 64 + (b1 - 128)
        if 128 ≤ n then (utf8Decode rest).map (fun cs => Char.ofNat n :: cs) else none
      else none
  | [] => none

/-- Continuation of `utf8Decode` for a 3-byte sequence beginning with `b`. -/
def utf8DecodeTail3 (b : ℕ) : List ℕ → Option (List Char)
  | b1 :: b2 :: rest =>
      if (128 ≤ b1 ∧ b1 < 192) ∧ (128 ≤ b2 ∧ b2 < 192) then
        let n := (b - 224) * 4096 + (b1 - 128) * 64 + (b2 - 128)
        if 2048 ≤ n ∧ (n < 55296 ∨ 57344 ≤ n) then
          (utf8Decode rest).map (fun cs => Char.ofNat n :: cs)
        else none
      else none
  | _ => none

/-- Continuation of `utf8Decode` for a 4-byte sequence beginning with `b`. -/
def utf8DecodeTail4 (b : ℕ) : List ℕ → Option (List Char)
  | b1 :: b2 :: b3 :: rest =>
      if (128 ≤ b1 ∧ b1 < 192) ∧ (128 ≤ b2 ∧ b2 < 192) ∧ (128 ≤ b3 ∧ b3 < 192) then
        let n := (b - 240) * 262144 + (b1 - 128) * 4096 + (b2 - 128) * 64 + (b3 - 128)
        if 65536 ≤ n ∧ n < 1114112 then
          (utf8Decode rest).map (fun cs => Char.ofNat n :: cs)
        else none
      else none
  | _ => none

end

/-- The base64 alphabet. -/
def BASE64_CHARS : List Char :=
  "ABCDEFGHIJKLMNOPQRSTUVWXYZabcdefghijklmnopqrstuvwxyz0123456789+/".data

/-- One base64 digit. -/
def base64Char (n : ℕ) : Char := BASE64_CHARS.getD n 'A'

/-- Standard base64 encoding with `=` padding (model of
`Buffer#toString('base64')`). -/
def base64Encode : List ℕ → List Char
  | [] => []
  | [a] => [base64Char (a / 4), base64Char (a % 4 * 16), '=', '=']
  | [a, b] =>
      [base64Char (a / 4), base64Char (a % 4 * 16 + b / 16), base64Char (b % 16 * 4), '=']
  | a :: b :: c :: rest =>
      base64Char (a / 4) :: base64Char (a % 4 * 16 + b / 16)
        :: base64Char (b % 16 * 4 + c / 64) :: base64Char (c % 64) :: base64Encode rest

/-! ### Mock adapter (packages/sunat/src/adapters/mock) -/

/-- `MockAdapterConfig` (the `delay` field only affects timing and is not
modelled). -/
structure MockAdapterConfig where
  ruc : String := ""
  forceStatus : Option String := none
  forceErrorCode : Option String := none
deriving DecidableEq, Repr

/-- The fixed rejection messages of `createRejectedResponse`. -/
def MockAdapter.errorMessages : List (String × String) :=
  [("2010", "El numero de documento del receptor no cumple con el formato establecido"),
   ("2017", "El documento ya fue informado anteriormente"),
   ("2800", "El tipo de documento del receptor no es valido"),
   ("3105", "El XML no cumple con el formato UBL 2.1")]

/-- `MockAdapter.createRejectedResponse(errorCode)`. -/
def MockAdapter.createRejectedResponse (errorCode : String) : SunatResponse :=
  { success := false
    status := .rejected
    responseCode := some errorCode
    responseMessage := some (jsOrString (MockAdapter.errorMessages.lookup errorCode)
      ("Error " ++ errorCode))
    notes := some [] }

/-- `MockAdapter.createExceptionResponse()`. -/
def MockAdapter.createExceptionResponse : SunatResponse :=
  { success := false
    status := .exception
    responseCode := some "EXC001"
    responseMessage := some "Error de conexion con los servidores de SUNAT"
    notes := some ["Intente nuevamente en unos minutos"] }

/-- `MockAdapter.generateMockCDR(filename, hash)`: the synthetic CDR XML, base64
encoded. -/
def MockAdapter.generateMockCDR (filename hash : String) : String :=
  String.mk (base64Encode (utf8Encode
    ("<?xml version=\"1.0\" encoding=\"UTF-8\"?>\n<ApplicationResponse xmlns=\"urn:oasis:names:specification:ubl:schema:xsd:ApplicationResponse-2\">\n  <ID>"
      ++ filename
      ++ "</ID>\n  <ResponseCode>0</ResponseCode>\n  <Description>El Comprobante ha sido aceptado</Description>\n  <DigestValue>"
      ++ hash
      ++ "</DigestValue>\n</ApplicationResponse>")))

/-- `MockAdapter.generateMockSignedXML(document)`. -/
def MockAdapter.generateMockSignedXML (doc : DocumentWithItems) : String :=
  "<?xml version=\"1.0\" encoding=\"UTF-8\"?>\n<Invoice xmlns=\"urn:oasis:names:specification:ubl:schema:xsd:Invoice-2\">\n  <!-- Mock signed XML for "
    ++ doc.series ++ "-" ++ doc.number ++ " -->\n</Invoice>"

/-- `MockAdapter.sendDocument`: validates first (the only adapter that does), then
honours a forced status, otherwise returns a synthetic accepted response.  The
pseudo-random digest (`generateMockHash`, 44 draws of `Math.random`) is passed in
as `mockHash`; no network call occurs anywhere in this adapter. -/
def MockAdapter.sendDocument (cfg : MockAdapterConfig) (doc : DocumentWithItems)
    (mockHash : String) : Except String SunatResponse := do
  BaseSunatAdapter.validateDocument doc
  if cfg.forceStatus = some "rejected" then
    return MockAdapter.createRejectedResponse (jsOrString cfg.forceErrorCode "2010")
  if cfg.forceStatus = some "exception" then
    return MockAdapter.createExceptionResponse
  let filename := BaseSunatAdapter.getDocumentFilename cfg.ruc doc
  return { success := true
           status := .accepted
           responseCode := some "0"
           responseMessage := some ("El Comprobante numero " ++ doc.series ++ "-"
             ++ doc.number ++ ", ha sido aceptado")
           hash := some mockHash
           notes := some []
           cdrData := some (MockAdapter.generateMockCDR filename mockHash)
           xmlSigned := some (MockAdapter.generateMockSignedXML doc) }

/-! ### C5: the exception boundary -/

/-- A well-formed document used as a fixed input for transport-boundary cases. -/
def sampleDoc : DocumentWithItems :=
  { type := "01", series := "F001", number := "00000001"
    items := [⟨"Producto"⟩]
    customer := some ⟨"6", "20123456786", "CLIENTE SA", none⟩
    tenant := some ⟨"20123456789", "EMISOR SA"⟩ }

/-- **C5 counterexample**: a non-2xx REST response whose body parses as JSON (here
an empty object) is classified by the Nubefact adapter as `rejected`, not as
`exception` as the claim states for "any non-2xx HTTP response". -/
theorem nubefact_non2xx_rejected_not_exception :
    (NubefactAdapter.sendDocument sampleDoc (.resolved false {})).status
      = SunatStatus.rejected ∧
    (NubefactAdapter.sendDocument sampleDoc (.resolved false {})).status
      ≠ SunatStatus.exception := by
  constructor
  · rfl
  · decide

/-- **C5 (amended)**: every error thrown inside the Nubefact adapter's `try` block
(network failure, timeout, invalid JSON) is converted to a structured result with
status `exception` — never rethrown — while a non-2xx response with a JSON body is
classified `rejected`; the direct adapter's `handleError` converts every caught
error to a structured `exception` result. -/
theorem adapter_exception_boundary :
    (∀ doc msg, NubefactAdapter.sendDocument doc (.thrown msg)
        = { success := false, status := .exception, responseCode := some "ERROR",
            responseMessage := some msg }) ∧
    (∀ doc body, (NubefactAdapter.sendDocument doc (.resolved false body)).status
        = SunatStatus.rejected ∧
      (NubefactAdapter.sendDocument doc (.resolved false body)).success = false) ∧
    (∀ msg, (DirectAdapter.handleError msg).status = SunatStatus.exception ∧
      (DirectAdapter.handleError msg).success = false) := by
  refine ⟨fun doc msg => rfl, ?_, ?_⟩
  · intro doc body
    simp [NubefactAdapter.sendDocument]
  · intro msg
    unfold DirectAdapter.handleError
    cases matchFaultcode msg.data <;> simp

/-! ### C6: the validation precondition -/

/-- A document violating all three preconditions: no tenant, no customer, no
items. -/
def invalidDoc : DocumentWithItems :=
  { type := "01", series := "F001", number := "00000001", items := [] }

/-- The body of an accepting provider response. -/
def acceptingBody : NubefactResponse :=
  { sunat_responsecode := some "0"
    sunat_description := some "ACEPTADO"
    aceptada_por_sunat := some true }

/-- **C6 counterexample**: the Nubefact adapter never applies the shared
`validateDocument` precondition — for a document with no issuer RUC, no customer
and zero items it still reaches the network and reports `accepted` when the
provider answers favourably (the base validator would have rejected the document). -/
theorem nubefact_skips_validation :
    (NubefactAdapter.sendDocument invalidDoc (.resolved true acceptingBody)).status
      = SunatStatus.accepted ∧
    (NubefactAdapter.sendDocument invalidDoc (.resolved true acceptingBody)).success
      = true ∧
    BaseSunatAdapter.validateDocument invalidDoc
      = Except.error "Document must have a tenant with RUC" := by
  refine ⟨?_, ?_, rfl⟩ <;> decide

/-- **C6 (amended)**: only the mock adapter enforces the shared validation
precondition: its `sendDocument` fails before doing anything else on a missing
tenant RUC, a missing customer, or an empty item list (and it performs no network
call at all); the Nubefact adapter performs no validation — its result is a
function of the transport outcome alone, identical for any two documents. -/
theorem mock_validates_nubefact_does_not :
    (∀ cfg doc mockHash, doc.tenant = none →
      MockAdapter.sendDocument cfg doc mockHash
        = .error "Document must have a tenant with RUC") ∧
    (∀ cfg doc mockHash t, doc.tenant = some t → t.ruc ≠ "" → doc.customer = none →
      MockAdapter.sendDocument cfg doc mockHash
        = .error "Document must have a customer") ∧
    (∀ cfg doc mockHash t c, doc.tenant = some t → t.ruc ≠ "" → doc.customer = some c →
      doc.items = [] →
      MockAdapter.sendDocument cfg doc mockHash
        = .error "Document must have at least one item") ∧
    (∀ doc doc2 outcome,
      NubefactAdapter.sendDocument doc outcome = NubefactAdapter.sendDocument doc2 outcome) := by
  refine ⟨?_, ?_, ?_, fun doc doc2 outcome => rfl⟩
  · intro cfg doc mockHash ht
    simp only [MockAdapter.sendDocument, BaseSunatAdapter.validateDocument, ht]
    rfl
  · intro cfg doc mockHash t ht hruc hc
    simp only [MockAdapter.sendDocument, BaseSunatAdapter.validateDocument, ht, hc,
      if_neg hruc]
    rfl
  · intro cfg doc mockHash t c ht hruc hc hi
    simp only [MockAdapter.sendDocument, BaseSunatAdapter.validateDocument, ht, hc, hi,
      if_neg hruc, List.isEmpty_nil, if_pos]
    rfl

/-- Witness for the amended C6 at concrete inputs: the mock adapter rejects the
empty document with the tenant message, and the Nubefact adapter's result on the
same transport outcome does not depend on the document at all. -/
theorem mock_validates_nubefact_does_not_witness :
    MockAdapter.sendDocument {} invalidDoc "MOCKHASH"
      = .error "Document must have a tenant with RUC" ∧
    NubefactAdapter.sendDocument invalidDoc (.thrown "socket hang up")
      = NubefactAdapter.sendDocument
          { type := "03", series := "B001", number := "00000002", items := [] }
          (.thrown "socket hang up") :=
  ⟨mock_validates_nubefact_does_not.1 {} invalidDoc "MOCKHASH" rfl,
   mock_validates_nubefact_does_not.2.2.2 invalidDoc
     { type := "03", series := "B001", number := "00000002", items := [] }
     (.thrown "socket hang up")⟩


/-- One-step decoding of a 1-byte sequence. -/
theorem utf8Decode_step1 (b : ℕ) (bs : List ℕ) (h : b < 128) :
    utf8Decode (b :: bs) = (utf8Decode bs).map (fun cs => Char.ofNat b :: cs) := by
  simp only [utf8Decode, if_pos h]

/-- One-step decoding of a 2-byte sequence. -/
theorem utf8Decode_step2 (b b1 : ℕ) (bs : List ℕ) (hb : 192 ≤ b) (hb2 : b < 224)
    (h1 : 128 ≤ b1) (h2 : b1 < 192) (hn : 128 ≤ (b - 192) * 64 + (b1 - 128)) :
    utf8Decode (b :: b1 :: bs)
      = (utf8Decode bs).map (fun cs => Char.ofNat ((b - 192) * 64 + (b1 - 128)) :: cs) := by
  simp only [utf8Decode, if_neg (by omega : ¬ b < 128), if_neg (by omega : ¬ b < 192),
    if_pos hb2]
  simp only [utf8DecodeTail2, if_pos (And.intro h1 h2), if_pos hn]

/-- One-step decoding of a 3-byte sequence. -/
theorem utf8Decode_step3 (b b1 b2 : ℕ) (bs : List ℕ) (hb : 224 ≤ b) (hb2 : b < 240)
    (h1 : 128 ≤ b1) (h2 : b1 < 192) (h3 : 128 ≤ b2) (h4 : b2 < 192)
    (hn : 2048 ≤ (b - 224) * 4096 + (b1 - 128) * 64 + (b2 - 128)
      ∧ ((b - 224) * 4096 + (b1 - 128) * 64 + (b2 - 128) < 55296
         ∨ 57344 ≤ (b - 224) * 4096 + (b1 - 128) * 64 + (b2 - 128))) :
    utf8Decode (b :: b1 :: b2 :: bs)
      = (utf8Decode bs).map
          (fun cs => Char.ofNat ((b - 224) * 4096 + (b1 - 128) * 64 + (b2 - 128)) :: cs) := by
  simp only [utf8Decode, if_neg (by omega : ¬ b < 128), if_neg (by omega : ¬ b < 192),
    if_neg (by omega : ¬ b < 224), if_pos hb2]
  simp only [utf8DecodeTail3, if_pos (And.intro (And.intro h1 h2) (And.intro h3 h4)),
    if_pos hn]

/-- One-step decoding of a 4-byte sequence. -/
theorem utf8Decode_step4 (b b1 b2 b3 : ℕ) (bs : List ℕ) (hb : 240 ≤ b) (hb2 : b < 248)
    (h1 : 128 ≤ b1) (h2 : b1 < 192) (h3 : 128 ≤ b2) (h4 : b2 < 192)
    (h5 : 128 ≤ b3) (h6 : b3 < 192)
    (hn : 65536 ≤ (b - 240) * 262144 + (b1 - 128) * 4096 + (b2 - 128) * 64 + (b3 - 128)
      ∧ (b - 240) * 262144 + (b1 - 128) * 4096 + (b2 - 128) * 64 + (b3 - 128) < 1114112) :
    utf8Decode (b :: b1 :: b2 :: b3 :: bs)
      = (utf8Decode bs).map
          (fun cs => Char.ofNat
            ((b - 240) * 262144 + (b1 - 128) * 4096 + (b2 - 128) * 64 + (b3 - 128)) :: cs) := by
  simp only [utf8Decode, if_neg (by omega : ¬ b < 128), if_neg (by omega : ¬ b < 192),
    if_neg (by omega : ¬ b < 224), if_neg (by omega : ¬ b < 240), if_pos hb2]
  simp only [utf8DecodeTail4,
    if_pos (And.intro (And.intro h1 h2) (And.intro (And.intro h3 h4) (And.intro h5 h6))),
    if_pos hn]

/-- Decoding after encoding one character consumes exactly that character's bytes
and recovers the character. -/
theorem utf8Decode_encodeChar_append (c : Char) (bs : List ℕ) :
    utf8Decode (utf8EncodeChar c ++ bs) = (utf8Decode bs).map (fun cs => c :: cs) := by
  have hofnat : Char.ofNat c.toNat = c := Char.ofNat_toNat c
  have hv : c.toNat < 55296 ∨ (57344 ≤ c.toNat ∧ c.toNat < 1114112) := c.valid
  rcases Nat.lt_or_ge c.toNat 128 with h1 | h1
  · have he : utf8EncodeChar c = [c.toNat] := by
      unfold utf8EncodeChar
      rw [if_pos h1]
    rw [he, List.cons_append, List.nil_append, utf8Decode_step1 _ _ h1, hofnat]
  · rcases Nat.lt_or_ge c.toNat 2048 with h2 | h2
    · have he : utf8EncodeChar c = [192 + c.toNat / 64, 128 + c.toNat % 64] := by
        unfold utf8EncodeChar
        rw [if_neg (by omega), if_pos h2]
      rw [he]
      simp only [List.cons_append, List.nil_append]
      rw [utf8Decode_step2 _ _ _ (by omega) (by omega) (by omega) (by omega) (by omega)]
      have hn : (192 + c.toNat / 64 - 192) * 64 + (128 + c.toNat % 64 - 128) = c.toNat := by
        omega
      rw [hn, hofnat]
    · rcases Nat.lt_or_ge c.toNat 65536 with h3 | h3
      · have he : utf8EncodeChar c
            = [224 + c.toNat / 4096, 128 + c.toNat / 64 % 64, 128 + c.toNat % 64] := by
          unfold utf8EncodeChar
          rw [if_neg (by omega), if_neg (by omega), if_pos h3]
        rw [he]
        simp only [List.cons_append, List.nil_append]
        rw [utf8Decode_step3 _ _ _ _ (by omega) (by omega) (by omega) (by omega) (by omega)
          (by omega) (by omega)]
        have hn : (224 + c.toNat / 4096 - 224) * 4096 + (128 + c.toNat / 64 % 64 - 128) * 64
            + (128 + c.toNat % 64 - 128) = c.toNat := by omega
        rw [hn, hofnat]
      · have he : utf8EncodeChar c
            = [240 + c.toNat / 262144, 128 + c.toNat / 4096 % 64, 128 + c.toNat / 64 % 64,
               128 + c.toNat % 64] := by
          unfold utf8EncodeChar
          rw [if_neg (by omega), if_neg (by omega), if_neg (by omega)]
        rw [he]
        simp only [List.cons_append, List.nil_append]
        rw [utf8Decode_step4 _ _ _ _ _ (by omega) (by omega) (by omega) (by omega) (by omega)
          (by omega) (by omega) (by omega) (by omega)]
        have hn : (240 + c.toNat / 262144 - 240) * 262144 + (128 + c.toNat / 4096 % 64 - 128) * 4096
            + (128 + c.toNat / 64 % 64 - 128) * 64 + (128 + c.toNat % 64 - 128) = c.toNat := by
          omega
        rw [hn, hofnat]

/-- The UTF-8 codec round-trips every string. -/
theorem utf8Decode_utf8Encode (s : String) : utf8Decode (utf8Encode s) = some s.data := by
  unfold utf8Encode
  induction s.data with
  | nil => rfl
  | cons c rest ih =>
    simp only [List.map_cons, List.flatten_cons]
    rw [utf8Decode_encodeChar_append, ih]
    rfl

/-! ## ZIP codec (`zipDocument` / `unzipResponse`, zip-utils in the direct
adapter)

The container layout is modelled byte-for-byte on `List ℕ`.  The zlib raw-deflate
codec is an external library, not repository code: it enters the model as a
function pair (`deflateRaw`, `inflateRaw`) whose only assumed property — stated as
a hypothesis where needed — is zlib's documented contract that `inflateRaw`
inverts `deflateRaw`.  The DOS timestamp fields derived from `new Date()` are
passed in as the two 16-bit values the source computes from the clock; the reader
never looks at them. -/

/-- `writeUInt16LE`: the two little-endian bytes of a 16-bit value. -/
def u16le (v : ℕ) : List ℕ := [v % 256, v / 256 % 256]

/-- `writeUInt32LE`: the four little-endian bytes of a 32-bit value. -/
def u32le (v : ℕ) : List ℕ := [v % 256, v / 256 % 256, v / 65536 % 256, v / 16777216 % 256]

/-- `LOCAL_FILE_HEADER = 0x04034b50`. -/
def LOCAL_FILE_HEADER : ℕ := 0x04034b50

/-- `CENTRAL_DIR_HEADER = 0x02014b50`. -/
def CENTRAL_DIR_HEADER : ℕ := 0x02014b50

/-- `END_OF_CENTRAL_DIR = 0x06054b50`. -/
def END_OF_CENTRAL_DIR : ℕ := 0x06054b50

/-- One inner iteration of the CRC32 table computation:
`c = (c & 1) ? (0xedb88320 ^ (c >>> 1)) : (c >>> 1)`. -/
def crc32Step (c : ℕ) : ℕ :=
  if c % 2 = 1 then Nat.xor 0xedb88320 (c / 2) else c / 2

/-- `table[k]`: eight iterations of `crc32Step` starting from the byte value. -/
def crc32Table (k : ℕ) : ℕ := crc32Step^[8] k

/-- `calculateCRC32(buffer)`: the standard reflected CRC-32. -/
def calculateCRC32 (bytes : List ℕ) : ℕ :=
  Nat.xor
    (bytes.foldl (fun crc b => Nat.xor (crc32Table (Nat.xor crc b % 256)) (crc / 256))
      0xffffffff)
    0xffffffff

/-- The 30-byte local file header plus the entry name: version 20, no flags,
compression method 8 (deflate), DOS time/date, CRC32, sizes, name length, no
extra field. -/
def zipLocalHeader (dosTime dosDate crc clen xlen : ℕ) (fb : List ℕ) : List ℕ :=
  u32le LOCAL_FILE_HEADER ++ u16le 20 ++ u16le 0 ++ u16le 8 ++ u16le dosTime
    ++ u16le dosDate ++ u32le crc ++ u32le clen ++ u32le xlen ++ u16le fb.length
    ++ u16le 0 ++ fb

/-- The 46-byte central directory header plus the entry name. -/
def zipCentralHeader (dosTime dosDate crc clen xlen : ℕ) (fb : List ℕ) : List ℕ :=
  u32le CENTRAL_DIR_HEADER ++ u16le 20 ++ u16le 20 ++ u16le 0 ++ u16le 8
    ++ u16le dosTime ++ u16le dosDate ++ u32le crc ++ u32le clen ++ u32le xlen
    ++ u16le fb.length ++ u16le 0 ++ u16le 0 ++ u16le 0 ++ u16le 0
    ++ u32le 0 ++ u32le 0 ++ fb

/-- The 22-byte end-of-central-directory record: one entry on one disk, central
directory size and offset, no comment. -/
def zipEndRecord (centralSize centralOffset : ℕ) : List ℕ :=
  u32le END_OF_CENTRAL_DIR ++ u16le 0 ++ u16le 0 ++ u16le 1 ++ u16le 1
    ++ u32le centralSize ++ u32le centralOffset ++ u16le 0

/-- `zipDocument(filename, xmlContent)`: local file header (method 8 = deflate),
raw-deflated entry data, central directory header and end-of-central-directory
record, single entry named `filename + ".xml"`. -/
def zipDocument (dosTime dosDate : ℕ) (deflateRaw : List ℕ → List ℕ)
    (filename xmlContent : String) : List ℕ :=
  let xmlBuffer := utf8Encode xmlContent
  let filenameBuffer := utf8Encode (filename ++ ".xml")
  let compressedData := deflateRaw xmlBuffer
  let crc32 := calculateCRC32 xmlBuffer
  let localHeader :=
    zipLocalHeader dosTime dosDate crc32 compressedData.length xmlBuffer.length
      filenameBuffer
  let centralHeader :=
    zipCentralHeader dosTime dosDate crc32 compressedData.length xmlBuffer.length
      filenameBuffer
  let endRecord :=
    zipEndRecord centralHeader.length (localHeader.length + compressedData.length)
  localHeader ++ compressedData ++ centralHeader ++ endRecord

/-- `readUInt16LE(off)`: `none` models Node's out-of-bounds `RangeError`. -/
def readU16 (buf : List ℕ) (off : ℕ) : Option ℕ :=
  match buf.drop off with
  | a :: b :: _ => some (a + 256 * b)
  | _ => none

/-- `readUInt32LE(off)`: `none` models Node's out-of-bounds `RangeError`. -/
def readU32 (buf : List ℕ) (off : ℕ) : Option ℕ :=
  match buf.drop off with
  | a :: b :: c :: d :: _ => some (a + 256 * b + 65536 * c + 16777216 * d)
  | _ => none

/-- The fatal errors of `unzipResponse`: the bad-magic `Invalid ZIP file` error,
the `Unsupported compression method` error, an out-of-bounds header read (a Node
`RangeError`), a raw-inflate failure from zlib, and — a modelling artefact — a
UTF-8 decode failure where Node would substitute U+FFFD characters. -/
inductive ZipError
  | invalidZip
  | unsupportedCompression (method : ℕ)
  | outOfRange
  | inflateError
  | decodeError
deriving DecidableEq, Repr

/-- `unzipResponse(zipBuffer)`: check the local-file-header magic, read the
compression method, compressed size and name/extra lengths from the local header,
slice the entry data (`subarray` clamps at the buffer end, as `drop`/`take` do),
then raw-inflate (method 8) or pass through (method 0) and decode as UTF-8. -/
def unzipResponse (inflateRaw : List ℕ → Option (List ℕ)) (zipBuffer : List ℕ) :
    Except ZipError String :=
  match readU32 zipBuffer 0 with
  | none => .error .outOfRange
  | some magic =>
    if magic ≠ LOCAL_FILE_HEADER then .error .invalidZip
    else
      match readU16 zipBuffer 8, readU32 zipBuffer 18,
          readU16 zipBuffer 26, readU16 zipBuffer 28 with
      | some method, some compressedSize, some filenameLength, some extraLength =>
        let dataOffset := 30 + filenameLength + extraLength
        let compressedData := (zipBuffer.drop dataOffset).take compressedSize
        if method = 8 then
          match inflateRaw compressedData with
          | some bytes =>
            match utf8Decode bytes with
            | some cs => .ok (String.mk cs)
            | none => .error .decodeError
          | none => .error .inflateError
        else if method = 0 then
          match utf8Decode compressedData with
          | some cs => .ok (String.mk cs)
          | none => .error .decodeError
        else .error (.unsupportedCompression method)
      | _, _, _, _ => .error .outOfRange

/-! ### C7: the ZIP round-trip and rejection behaviour -/

/-- Reading a 16-bit field past a known prefix. -/
theorem readU16_skip (p l : List ℕ) (n : ℕ) :
    readU16 (p ++ l) (p.length + n) = readU16 l n := by
  unfold readU16
  rw [List.drop_append]

theorem readU32_skip (p l : List ℕ) (n : ℕ) :
    readU32 (p ++ l) (p.length + n) = readU32 l n := by
  unfold readU32
  rw [List.drop_append]

theorem readU16_u16le (v : ℕ) (l : List ℕ) (h : v < 65536) :
    readU16 (u16le v ++ l) 0 = some v := by
  simp [readU16, u16le]
  omega

theorem readU32_u32le (v : ℕ) (l : List ℕ) (h : v < 4294967296) :
    readU32 (u32le v ++ l) 0 = some v := by
  simp [readU32, u32le]
  omega

/-- Unpacking a buffer that begins with a well-formed deflate-method local file
header reaches the raw-inflate of exactly the entry bytes. -/
theorem unzip_zipLocalHeader (clen xlen crc dosTime dosDate : ℕ)
    (fb entry tail : List ℕ) (inflateRaw : List ℕ → Option (List ℕ))
    (hentry : entry.length = clen)
    (hclen : clen < 4294967296) (hflen : fb.length < 65536) :
    unzipResponse inflateRaw (zipLocalHeader dosTime dosDate crc clen xlen fb ++ (entry ++ tail))
      = (match inflateRaw entry with
        | some bytes =>
          match utf8Decode bytes with
          | some cs => Except.ok (String.mk cs)
          | none => Except.error ZipError.decodeError
        | none => Except.error ZipError.inflateError) := by
  set Z := zipLocalHeader dosTime dosDate crc clen xlen fb ++ (entry ++ tail) with hZ
  have r0 : readU32 Z 0 = some LOCAL_FILE_HEADER := by
    rw [hZ]
    simp only [zipLocalHeader, List.append_assoc]
    exact readU32_u32le _ _ (by norm_num [LOCAL_FILE_HEADER])
  have r8 : readU16 Z 8 = some 8 := by
    rw [hZ]
    simp only [zipLocalHeader, List.append_assoc]
    refine Eq.trans (readU16_skip _ _ 4) ?_
    refine Eq.trans (readU16_skip _ _ 2) ?_
    refine Eq.trans (readU16_skip _ _ 0) ?_
    exact readU16_u16le 8 _ (by norm_num)
  have r18 : readU32 Z 18 = some clen := by
    rw [hZ]
    simp only [zipLocalHeader, List.append_assoc]
    refine Eq.trans (readU32_skip _ _ 14) ?_
    refine Eq.trans (readU32_skip _ _ 12) ?_
    refine Eq.trans (readU32_skip _ _ 10) ?_
    refine Eq.trans (readU32_skip _ _ 8) ?_
    refine Eq.trans (readU32_skip _ _ 6) ?_
    refine Eq.trans (readU32_skip _ _ 4) ?_
    refine Eq.trans (readU32_skip _ _ 0) ?_
    exact readU32_u32le clen _ hclen
  have r26 : readU16 Z 26 = some fb.length := by
    rw [hZ]
    simp only [zipLocalHeader, List.append_assoc]
    refine Eq.trans (readU16_skip _ _ 22) ?_
    refine Eq.trans (readU16_skip _ _ 20) ?_
    refine Eq.trans (readU16_skip _ _ 18) ?_
    refine Eq.trans (readU16_skip _ _ 16) ?_
    refine Eq.trans (readU16_skip _ _ 14) ?_
    refine Eq.trans (readU16_skip _ _ 12) ?_
    refine Eq.trans (readU16_skip _ _ 8) ?_
    refine Eq.trans (readU16_skip _ _ 4) ?_
    refine Eq.trans (readU16_skip _ _ 0) ?_
    exact readU16_u16le fb.length _ hflen
  have r28 : readU16 Z 28 = some 0 := by
    rw [hZ]
    simp only [zipLocalHeader, List.append_assoc]
    refine Eq.trans (readU16_skip _ _ 24) ?_
    refine Eq.trans (readU16_skip _ _ 22) ?_
    refine Eq.trans (readU16_skip _ _ 20) ?_
    refine Eq.trans (readU16_skip _ _ 18) ?_
    refine Eq.trans (readU16_skip _ _ 16) ?_
    refine Eq.trans (readU16_skip _ _ 14) ?_
    refine Eq.trans (readU16_skip _ _ 10) ?_
    refine Eq.trans (readU16_skip _ _ 6) ?_
    refine Eq.trans (readU16_skip _ _ 2) ?_
    refine Eq.trans (readU16_skip _ _ 0) ?_
    exact readU16_u16le 0 _ (by norm_num)
  have hdrop : Z.drop (30 + fb.length + 0) = entry ++ tail := by
    rw [hZ]
    refine List.drop_left' ?_
    simp [zipLocalHeader, u32le, u16le]
    omega
  have htake : (entry ++ tail).take clen = entry := List.take_left' hentry
  unfold unzipResponse
  simp only [r0, r8, r18, r26, r28]
  rw [if_neg (by simp : ¬ LOCAL_FILE_HEADER ≠ LOCAL_FILE_HEADER)]
  simp only [hdrop, htake, if_pos rfl, if_true]


/-- **C7**: with the zlib raw-deflate codec abstracted by its inverse property
(`inflateRaw ∘ deflateRaw = id`, zlib's documented contract), the single-entry
archive round-trips: `unzipResponse (zipDocument name xml) = xml` for every
filename and every UTF-8 string, including non-ASCII characters; a buffer whose
first four bytes are not the local-file-header magic is rejected as an invalid
ZIP; and a parseable local header carrying any compression method other than
deflate (8) or stored (0) is rejected as an unsupported-compression error. -/
theorem zip_roundtrip_and_rejects :
    (∀ (dosTime dosDate : ℕ) (deflateRaw : List ℕ → List ℕ)
        (inflateRaw : List ℕ → Option (List ℕ)) (filename xmlContent : String),
      inflateRaw (deflateRaw (utf8Encode xmlContent)) = some (utf8Encode xmlContent) →
      (deflateRaw (utf8Encode xmlContent)).length < 4294967296 →
      (utf8Encode (filename ++ ".xml")).length < 65536 →
      unzipResponse inflateRaw (zipDocument dosTime dosDate deflateRaw filename xmlContent)
        = .ok xmlContent) ∧
    (∀ (inflateRaw : List ℕ → Option (List ℕ)) (buf : List ℕ) (w : ℕ),
      readU32 buf 0 = some w → w ≠ LOCAL_FILE_HEADER →
      unzipResponse inflateRaw buf = .error .invalidZip) ∧
    (∀ (inflateRaw : List ℕ → Option (List ℕ)) (buf : List ℕ) (m cs fl el : ℕ),
      readU32 buf 0 = some LOCAL_FILE_HEADER →
      readU16 buf 8 = some m → readU32 buf 18 = some cs →
      readU16 buf 26 = some fl → readU16 buf 28 = some el →
      m ≠ 8 → m ≠ 0 →
      unzipResponse inflateRaw buf = .error (.unsupportedCompression m)) := by
  refine ⟨?_, ?_, ?_⟩
  · intro dosTime dosDate deflateRaw inflateRaw filename xmlContent hinv hclen hflen
    simp only [zipDocument]
    rw [List.append_assoc, List.append_assoc]
    refine Eq.trans (unzip_zipLocalHeader _ _ _ _ _ _ _ _ inflateRaw rfl hclen hflen) ?_
    simp only [hinv, utf8Decode_utf8Encode]
  · intro inflateRaw buf w hr hw
    unfold unzipResponse
    simp only [hr]
    rw [if_pos hw]
  · intro inflateRaw buf m cs fl el h0 h8 h18 h26 h28 hm8 hm0
    unfold unzipResponse
    simp only [h0, h8, h18, h26, h28]
    rw [if_neg (by simp : ¬ LOCAL_FILE_HEADER ≠ LOCAL_FILE_HEADER), if_neg hm8, if_neg hm0]

/-- Witness for C7 at concrete inputs: the identity codec (a valid instance of the
inverse hypothesis) round-trips a string containing `Ñ` and `á`; a wrong-magic
buffer is rejected as invalid; method 99 is rejected as unsupported. -/
theorem zip_roundtrip_and_rejects_witness :
    unzipResponse some (zipDocument 0 0 (fun b => b) "t" "Ñá<a/>") = .ok "Ñá<a/>" ∧
    unzipResponse some [1, 2, 3, 4, 5] = .error .invalidZip ∧
    unzipResponse some
        (u32le LOCAL_FILE_HEADER ++ u16le 20 ++ u16le 0 ++ u16le 99 ++ u16le 0 ++ u16le 0
          ++ u32le 0 ++ u32le 0 ++ u32le 0 ++ u16le 0 ++ u16le 0)
      = .error (.unsupportedCompression 99) := by
  refine ⟨?_, ?_, ?_⟩
  · exact zip_roundtrip_and_rejects.1 0 0 (fun b => b) some "t" "Ñá<a/>" rfl
      (by decide) (by decide)
  · exact zip_roundtrip_and_rejects.2.1 some [1, 2, 3, 4, 5]
      (1 + 256 * 2 + 65536 * 3 + 16777216 * 4) rfl (by decide)
  · exact zip_roundtrip_and_rejects.2.2 some _ 99 0 0 0 (by decide) (by decide) (by decide)
      (by decide) (by decide) (by decide) (by decide)
